import Mathlib

/-!
A verification development for the `acp` command-line tool (`acp.py`).

The file gives a shallow embedding of the tool's pure string processing
(`parse_github_url` and friends) and of its PR-creation workflow
(`create_pr`) as a deterministic trace semantics over an environment that
supplies the result of every external command invocation, and proves the
specification's claims about these definitions.
-/

deriving instance DecidableEq for Except

namespace Acp

/-- Python strings are modelled as lists of characters. -/
abbrev Str := List Char

/-- View a Lean string literal as the model's string type. -/
def strOf (s : String) : Str := s.data

/-- Python `s.startswith(p)`: `p` is an initial segment of `s`. -/
def strStarts (p s : Str) : Bool :=
  match p, s with
  | [], _ => true
  | _ :: _, [] => false
  | a :: p', b :: s' => a == b && strStarts p' s'

/-- Python `n in s` on strings: `n` occurs as a contiguous substring of `s`. -/
def containsSub (n s : Str) : Bool :=
  match s with
  | [] => n.isEmpty
  | c :: t => strStarts n (c :: t) || containsSub n t

/-- Python `s.split(sep)` for a one-character separator `sep`. -/
def pySplitChar (sep : Char) : Str → List Str
  | [] => [[]]
  | c :: r =>
    if c == sep then [] :: pySplitChar sep r
    else
      match pySplitChar sep r with
      | [] => [[c]]
      | h :: t => (c :: h) :: t

/-- Python `s.replace(old, new)` for a non-empty `old`: replaces every
occurrence, scanning left to right, non-overlapping.  (Python's behaviour
for an empty `old` differs; the tool only ever replaces `".git"`.)
The recursion is structural in a fuel argument — one unit per character
position, so a fuel of `s.length` always suffices — which keeps the
function reducible by evaluation. -/
def pyReplaceF (old new : Str) : Nat → Str → Str
  | _, [] => []
  | 0, s => s
  | fuel + 1, c :: r =>
    if 0 < old.length ∧ strStarts old (c :: r) = true then
      new ++ pyReplaceF old new fuel (List.drop (old.length - 1) r)
    else
      c :: pyReplaceF old new fuel r

/-- Python `s.replace(old, new)`: `pyReplaceF` with enough fuel. -/
def pyReplace (old new s : Str) : Str := pyReplaceF old new s.length s

/-- Characters Python's `str.strip()` removes. -/
def isPySpace (c : Char) : Bool :=
  c == ' ' || c == '\t' || c == '\n' || c == '\r' || c == '\x0b' || c == '\x0c'

/-- Python `s.strip()`: drop whitespace from both ends. -/
def pyStrip (s : Str) : Str :=
  ((s.dropWhile isPySpace).reverse.dropWhile isPySpace).reverse

/-- Decimal rendering of a natural number, as used by Python f-strings. -/
def natStr (n : Nat) : Str := Nat.toDigits 10 n

/-- Python `"/".join(parts)`. -/
def joinSlash : List Str → Str
  | [] => []
  | [x] => x
  | x :: r => x ++ '/' :: joinSlash r

/-- Python `parts[-2:]` on a list. -/
def lastTwo (l : List Str) : List Str := l.drop (l.length - 2)

/-- Python `parts[0]` on a list produced by `split` (never empty). -/
def pyIdx0 (l : List Str) : Str := l.headD []

/-- Python `s.splitlines()` restricted to `'\n'` separators (the only kind
the tool's own messages contain). -/
def pySplitLines (s : Str) : List Str :=
  if s = [] then []
  else if s.getLast? = some '\n' then (pySplitChar '\n' s).dropLast
  else pySplitChar '\n' s

/-- The hosting domain accepted by `parse_github_url`. -/
def ghHost : Str := strOf "github.com"

/-- The marker of an SSH-form remote URL. -/
def sshMark : Str := strOf "git@"

/-- The suffix removed from remote URLs. -/
def dotGit : Str := strOf ".git"

/-- Embedding of `acp.parse_github_url` (acp.py lines 95-112).

The Python code is
```
if "github.com" not in url: return None
if url.startswith("git@"): return url.split(":")[1].replace(".git", "")
return "/".join(url.split("/")[-2:]).replace(".git", "")
```
`url.split(":")[1]` raises `IndexError` when the split has a single part;
that exception is modelled as `.error ()`. -/
def parse_github_url (url : Str) : Except Unit (Option Str) :=
  if containsSub ghHost url = false then .ok none
  else if strStarts sshMark url then
    match (pySplitChar ':' url).get? 1 with
    | some part => .ok (some (pyReplace dotGit [] part))
    | none => .error ()
  else
    .ok (some (pyReplace dotGit [] (joinSlash (lastTwo (pySplitChar '/' url)))))

/-- The SSH remote URL form `git@github.com:owner/repo.git` for an
owner/repo pair. -/
def sshUrl (owner repo : Str) : Str :=
  strOf "git@github.com:" ++ (owner ++ '/' :: (repo ++ dotGit))

/-- The HTTPS remote URL form `https://github.com/owner/repo.git` for an
owner/repo pair. -/
def httpsUrl (owner repo : Str) : Str :=
  strOf "https://github.com/" ++ (owner ++ '/' :: (repo ++ dotGit))

/-- The host component of a remote URL, in the sense the specification
uses the word: for an SSH-form URL (`git@host:path`) the segment between
`@` and `:`, and for a scheme URL (`scheme://host/path`) the authority
segment after the double slash.  `parse_github_url` itself never computes
a host; this definition only serves to state claim C7. -/
def urlHost (url : Str) : Str :=
  if strStarts sshMark url then pyIdx0 (pySplitChar ':' (url.drop 4))
  else ((pySplitChar '/' url).get? 2).getD []

/-! ## Trace semantics for the PR-creation workflow

Every external command invocation (`subprocess.run`, and the wrappers
`run`, `run_check`, `run_interactive`) is resolved by an environment that
assigns a result — exit code, stdout, stderr — to each invocation, counted
in program order.  A program is a state transformer producing a value or a
halt, together with the trace of events it emitted: commands executed,
lines printed to stdout, lines printed to stderr. -/

/-- The result of one external command: exit code, stdout text, stderr
text. -/
structure CmdRes where
  code : Nat
  outp : Str
  errp : Str
deriving DecidableEq

/-- An observable event of the workflow. -/
inductive Ev where
  | cmd (argv : List Str) (r : CmdRes)
  | out (msg : Str)
  | err (msg : Str)
deriving DecidableEq

/-- How a run can stop early: `exited c` models `sys.exit(c)` (Python's
`SystemExit`, which derives from `BaseException`); `exn` models an ordinary
exception (an `Exception` such as `IndexError`). -/
inductive Halt where
  | exited (code : Nat)
  | exn
deriving DecidableEq

/-- The ambient world: the result of the k-th command invocation, the
current unix timestamp (`time.time()`), and the random number drawn by
`random.randint` for the branch name. -/
structure Env where
  res : Nat → CmdRes
  time : Nat
  rand : Nat

/-- Workflow programs: given the environment and the next invocation
counter, produce an outcome, the new counter, and the emitted events. -/
def M (α : Type) := Env → Nat → Except Halt α × Nat × List Ev

/-- Monadic return for `M`. -/
def M.mk_pure (a : α) : M α := fun _ k => (.ok a, k, [])

/-- Monadic sequencing for `M`; events are concatenated in order. -/
def M.mk_bind (x : M α) (f : α → M β) : M β := fun env k =>
  match x env k with
  | (.ok a, k1, e1) =>
    match f a env k1 with
    | (r, k2, e2) => (r, k2, e1 ++ e2)
  | (.error h, k1, e1) => (.error h, k1, e1)

instance : Monad M where
  pure := M.mk_pure
  bind := M.mk_bind

/-- Execute one external command; its result comes from the environment. -/
def exec (argv : List Str) : M CmdRes := fun env k =>
  (.ok (env.res k), k + 1, [.cmd argv (env.res k)])

/-- Python `print(msg)` to stdout. -/
def echoOut (msg : Str) : M Unit := fun _ k => (.ok (), k, [.out msg])

/-- Python `print(msg, file=sys.stderr)`. -/
def echoErr (msg : Str) : M Unit := fun _ k => (.ok (), k, [.err msg])

/-- Python `sys.exit(code)`: raises `SystemExit`. -/
def sysExit (code : Nat) : M α := fun _ k => (.error (.exited code), k, [])

/-- Python `int(time.time())`. -/
def getTime : M Nat := fun env k => (.ok env.time, k, [])

/-- Python `random.randint(1000000000000000, 9999999999999999)`: the drawn
number is supplied by the environment. -/
def getRand : M Nat := fun env k => (.ok env.rand, k, [])

/-- Lift a possibly-raising pure computation (such as `parse_github_url`,
whose `IndexError` is an ordinary `Exception`) into the workflow monad. -/
def liftParse (x : Except Unit (Option Str)) : M (Option Str) := fun _ k =>
  match x with
  | .ok v => (.ok v, k, [])
  | .error _ => (.error .exn, k, [])

/-- The literal `"git"`. -/
def gitS : Str := strOf "git"

/-- The literal `"gh"`. -/
def ghS : Str := strOf "gh"

/-- Embedding of `acp.run` (acp.py lines 15-21): run a command; on nonzero
exit print `Error: <stderr>` to stderr and `sys.exit(1)`; otherwise return
the stripped stdout.  (The `quiet` parameter of the source is unused by its
body and is omitted.) -/
def run (cmd : List Str) : M Str := do
  let r ← exec cmd
  if r.code ≠ 0 then do
    echoErr (strOf "Error: " ++ r.errp)
    sysExit 1
  else
    pure (pyStrip r.outp)

/-- Embedding of `acp.run_check` (acp.py lines 24-27): run a command that
may fail, return whether it exited 0. -/
def run_check (cmd : List Str) : M Bool := do
  let r ← exec cmd
  pure (r.code == 0)

/-- The stderr-filtering loop of `run_interactive`: print each line whose
stripped form does not start with `remote:`. -/
def emitFiltered : List Str → M Unit
  | [] => pure ()
  | l :: rest => do
    if strStarts (strOf "remote:") (pyStrip l) then pure () else echoErr l
    emitFiltered rest

/-- Embedding of `acp.run_interactive` (acp.py lines 30-92): run a command
with terminal passthrough, print its stderr filtered of `remote:` lines,
and on nonzero exit print a diagnostic and `sys.exit(1)`. -/
def run_interactive (cmd : List Str) : M Unit := do
  let r ← exec cmd
  emitFiltered (pySplitLines r.errp)
  if r.code ≠ 0 then do
    echoErr (strOf "Error: Command failed with exit code " ++ natStr r.code)
    sysExit 1
  else
    pure ()

/-- Embedding of `acp.validate_merge_options` (acp.py lines 115-140). -/
def validate_merge_options (interactive merge auto_merge : Bool)
    (merge_method : Str) : M Unit := do
  if interactive && (merge || auto_merge) then do
    echoErr (strOf "Error: Cannot use --merge or --auto-merge with --interactive mode")
    sysExit 1
  else pure ()
  if merge && auto_merge then do
    echoErr (strOf "Error: Cannot use --merge and --auto-merge together")
    sysExit 1
  else pure ()
  if [strOf "merge", strOf "squash", strOf "rebase"].contains merge_method = false then do
    echoErr (strOf "Error: Invalid merge method \x27" ++ merge_method
      ++ strOf "\x27. Must be one of: merge, squash, rebase")
    sysExit 1
  else pure ()

/-- Embedding of `acp.get_repo_info` (acp.py lines 143-176).  Python's
`if not fork_repo:` treats both `None` and the empty string as falsy, hence
the `some (c :: _)` patterns.  (The `verbose` parameter is unused by the
source body.) -/
def get_repo_info (verbose : Bool) : M (Str × Str × Bool) := do
  let origin_url ← run [gitS, strOf "remote", strOf "get-url", strOf "origin"]
  let fork_repo ← liftParse (parse_github_url origin_url)
  match fork_repo with
  | some (c :: fr) => do
    let upstream_check ← exec [gitS, strOf "remote", strOf "get-url", strOf "upstream"]
    if upstream_check.code == 0 then do
      let upstream_url := pyStrip upstream_check.outp
      let upstream_repo ← liftParse (parse_github_url upstream_url)
      match upstream_repo with
      | some (u :: ur) => pure (c :: fr, u :: ur, true)
      | _ => do
        echoErr (strOf "Error: upstream repo is not a github.com repo")
        sysExit 1
    else
      pure (c :: fr, c :: fr, false)
  | _ => do
    echoErr (strOf "Error: Not a GitHub repository")
    sysExit 1

/-- Embedding of `acp.generate_temp_branch_name` (acp.py lines 179-191). -/
def generate_temp_branch_name (verbose : Bool) : M Str := do
  let gh_user ← run [ghS, strOf "api", strOf "user", strOf "--jq", strOf ".login"]
  let random_num ← getRand
  let temp_branch := strOf "acp/" ++ gh_user ++ '/' :: natStr random_num
  if verbose then
    echoOut (strOf "Creating temporary branch: \x27" ++ temp_branch ++ strOf "\x27")
  else pure ()
  pure temp_branch

/-- Embedding of `acp.build_compare_url` (acp.py lines 194-205). -/
def build_compare_url (upstream_repo fork_repo temp_branch : Str)
    (is_fork : Bool) : Str :=
  if is_fork then
    strOf "https://github.com/" ++ fork_repo ++ strOf "/pull/new/" ++ temp_branch
  else
    strOf "https://github.com/" ++ upstream_repo ++ strOf "/pull/new/" ++ temp_branch

/-- The `gh pr create` command line constructed by `create_github_pr`
(acp.py lines 218-235). -/
def ghPrCreateCmd (upstream_repo fork_repo temp_branch commit_message body : Str)
    (is_fork : Bool) : List Str :=
  [ghS, strOf "pr", strOf "create", strOf "--repo", upstream_repo,
    strOf "--title", commit_message, strOf "--body", body]
  ++ (if is_fork then
      [strOf "--head", pyIdx0 (pySplitChar '/' fork_repo) ++ ':' :: temp_branch]
    else
      [strOf "--head", temp_branch])

/-- Embedding of `acp.create_github_pr` (acp.py lines 208-242): build the
`gh pr create` invocation — head qualified as `forkOwner:branch` when the
repository is a fork — run it, and return the PR URL it prints. -/
def create_github_pr (upstream_repo fork_repo temp_branch commit_message body : Str)
    (is_fork verbose : Bool) : M Str := do
  if verbose then
    echoOut (strOf "Creating PR to: \x27" ++ upstream_repo ++ strOf "\x27...")
  else pure ()
  let pr_url ← run (ghPrCreateCmd upstream_repo fork_repo temp_branch commit_message body is_fork)
  if verbose then
    echoOut (strOf "PR created: " ++ pr_url)
  else pure ()
  pure pr_url

/-- Embedding of `acp.check_remote_branch_exists` (acp.py lines 245-255). -/
def check_remote_branch_exists (upstream_repo temp_branch : Str) : M Bool := do
  let r ← exec [ghS, strOf "api",
    strOf "repos/" ++ upstream_repo ++ strOf "/git/refs/heads/" ++ temp_branch]
  pure (r.code == 0)

/-- Embedding of `acp.delete_local_branch` (acp.py lines 258-342).  The
source contains the remote-tracking-branch deletion block twice verbatim
(lines 292-316 and 318-342, with slightly different verbose messages); both
copies are embedded. -/
def delete_local_branch (temp_branch : Str) (verbose : Bool) : M Unit := do
  let local_check ← exec [gitS, strOf "rev-parse", strOf "--verify", temp_branch]
  if local_check.code == 0 then do
    if verbose then
      echoOut (strOf "Deleting local branch \x27" ++ temp_branch ++ strOf "\x27...")
    else pure ()
    let delete_result ← exec [gitS, strOf "branch", strOf "-D", temp_branch]
    if delete_result.code == 0 then
      if verbose then
        echoOut (strOf "Local branch \x27" ++ temp_branch ++ strOf "\x27 deleted")
      else pure ()
    else
      if verbose then
        echoOut (strOf "Warning: Could not delete local branch \x27" ++ temp_branch
          ++ strOf "\x27: " ++ pyStrip delete_result.errp)
      else pure ()
  else
    if verbose then
      echoOut (strOf "Local branch \x27" ++ temp_branch ++ strOf "\x27 does not exist")
    else pure ()
  let rtc1 ← exec [gitS, strOf "rev-parse", strOf "--verify", strOf "origin/" ++ temp_branch]
  if rtc1.code == 0 then do
    if verbose then
      echoOut (strOf "Deleting remote tracking branch \x27origin/" ++ temp_branch ++ strOf "\x27...")
    else pure ()
    let dtr1 ← exec [gitS, strOf "branch", strOf "-rd", strOf "origin/" ++ temp_branch]
    if dtr1.code == 0 then
      if verbose then
        echoOut (strOf "Remote tracking branch \x27origin/" ++ temp_branch ++ strOf "\x27 deleted")
      else pure ()
    else
      if verbose then
        echoOut (strOf "Warning: Could not delete remote tracking branch: "
          ++ pyStrip dtr1.errp)
      else pure ()
  else pure ()
  let rtc2 ← exec [gitS, strOf "rev-parse", strOf "--verify", strOf "origin/" ++ temp_branch]
  if rtc2.code == 0 then do
    if verbose then
      echoOut (strOf "Deleting remote tracking branch origin/" ++ temp_branch ++ strOf "...")
    else pure ()
    let dtr2 ← exec [gitS, strOf "branch", strOf "-rd", strOf "origin/" ++ temp_branch]
    if dtr2.code == 0 then
      if verbose then
        echoOut (strOf "Remote tracking branch origin/" ++ temp_branch ++ strOf " deleted")
      else pure ()
    else
      if verbose then
        echoOut (strOf "Warning: Could not delete remote tracking branch: "
          ++ pyStrip dtr2.errp)
      else pure ()
  else pure ()

/-- Embedding of `acp.delete_remote_branch` (acp.py lines 345-368). -/
def delete_remote_branch (upstream_repo temp_branch : Str) (verbose : Bool) : M Unit := do
  if verbose then
    echoOut (strOf "Deleting remote branch \x27" ++ temp_branch ++ strOf "\x27...")
  else pure ()
  let delete_result ← exec [ghS, strOf "api", strOf "-X", strOf "DELETE",
    strOf "repos/" ++ upstream_repo ++ strOf "/git/refs/heads/" ++ temp_branch]
  if delete_result.code ≠ 0 then
    if verbose then
      echoOut (strOf "Warning: Could not delete remote branch \x27" ++ temp_branch
        ++ strOf "\x27: " ++ pyStrip delete_result.errp)
    else pure ()
  else
    if verbose then
      echoOut (strOf "Remote branch \x27" ++ temp_branch ++ strOf "\x27 deleted")
    else pure ()

/-- Embedding of `acp.cleanup_branches_after_merge` (acp.py lines 371-393). -/
def cleanup_branches_after_merge (upstream_repo temp_branch : Str)
    (verbose : Bool) : M Unit := do
  if verbose then
    echoOut (strOf "Checking if branch \x27" ++ temp_branch ++ strOf "\x27 still exists...")
  else pure ()
  let branch_exists ← check_remote_branch_exists upstream_repo temp_branch
  if branch_exists then do
    delete_remote_branch upstream_repo temp_branch verbose
    delete_local_branch temp_branch verbose
  else do
    if verbose then
      echoOut (strOf "Branch \x27" ++ temp_branch ++ strOf "\x27 already deleted by GitHub")
    else pure ()
    delete_local_branch temp_branch verbose

/-- Embedding of `acp.merge_pr` (acp.py lines 396-451): on merge failure,
print the PR URL first (when not verbose; verbose mode already printed it
at creation), then the merge-failure diagnostic, then `sys.exit(1)`. -/
def merge_pr (pr_url commit_message merge_method upstream_repo temp_branch : Str)
    (verbose sync : Bool) (original_branch : Str) : M Unit := do
  if verbose then
    echoOut (strOf "Merging PR immediately (method: " ++ merge_method ++ strOf ")...")
  else pure ()
  let merge_result ← exec [ghS, strOf "pr", strOf "merge", pr_url, strOf "--" ++ merge_method]
  if merge_result.code ≠ 0 then do
    if verbose = false then echoOut (strOf "PR created: " ++ pr_url) else pure ()
    echoErr (strOf "Error: Failed to merge PR: " ++ pyStrip merge_result.errp)
    sysExit 1
  else pure ()
  echoOut (strOf "PR \"" ++ commit_message ++ strOf "\" (" ++ pr_url ++ strOf ") merged!")
  cleanup_branches_after_merge upstream_repo temp_branch verbose
  if sync then do
    if verbose then
      echoOut (strOf "Syncing branch \x27" ++ original_branch ++ strOf "\x27 with remote...")
    else pure ()
    let pull_result ← exec [gitS, strOf "pull", strOf "origin", original_branch]
    if pull_result.code ≠ 0 then
      echoErr (strOf "Warning: Failed to sync branch \x27" ++ original_branch
        ++ strOf "\x27: " ++ pyStrip pull_result.errp)
    else
      if verbose then
        echoOut (strOf "Branch \x27" ++ original_branch ++ strOf "\x27 synced successfully")
      else pure ()
  else pure ()

/-- Embedding of `acp.enable_auto_merge` (acp.py lines 454-478): on failure,
print the PR URL first (when not verbose), then the auto-merge failure
diagnostic, then `sys.exit(1)`. -/
def enable_auto_merge (pr_url commit_message merge_method : Str)
    (verbose : Bool) : M Unit := do
  if verbose then
    echoOut (strOf "Enabling auto-merge (method: " ++ merge_method ++ strOf ")...")
  else pure ()
  let merge_result ← exec [ghS, strOf "pr", strOf "merge", pr_url, strOf "--auto",
    strOf "--" ++ merge_method]
  if merge_result.code ≠ 0 then do
    if verbose = false then echoOut (strOf "PR created: " ++ pr_url) else pure ()
    echoErr (strOf "Error: Failed to enable auto-merge: " ++ pyStrip merge_result.errp)
    sysExit 1
  else pure ()
  echoOut (strOf "PR \"" ++ commit_message ++ strOf "\" (" ++ pr_url
    ++ strOf ") will auto-merge when checks pass")

/-- The `except Exception` handler body of `create_pr` (acp.py lines
672-706): report the current branch and attempt to switch back to the
original one.  Its inner `try/except` guard cannot fire in this model (no
modelled operation in it raises), so only the inner body is embedded. -/
def create_pr_handler (original_branch : Str) : M Unit := do
  let r ← exec [gitS, strOf "rev-parse", strOf "--abbrev-ref", strOf "HEAD"]
  let current := pyStrip r.outp
  echoErr (strOf "\nError occurred. Current state:")
  echoErr (strOf "  Current branch: \x27" ++ current ++ strOf "\x27")
  if current ≠ original_branch then do
    echoErr (strOf "  Attempting to switch back to: \x27" ++ original_branch ++ strOf "\x27")
    let _ ← exec [gitS, strOf "checkout", original_branch]
    echoErr (strOf "  Successfully switched back to: \x27" ++ original_branch ++ strOf "\x27")
  else
    echoErr (strOf "  Already on original branch: \x27" ++ original_branch ++ strOf "\x27")

/-- Python `try: body / except Exception: handler; raise`.  A `SystemExit`
raised by `sys.exit` derives from `BaseException`, not from `Exception`, so
the handler runs only for ordinary exceptions (`Halt.exn`); `Halt.exited`
outcomes propagate untouched. -/
def tryExceptException (body : M α) (handler : M Unit) : M α := fun env k =>
  match body env k with
  | (.error .exn, k1, e1) =>
    match handler env k1 with
    | (_, k2, e2) => (.error .exn, k2, e1 ++ e2)
  | other => other

/-- The `try` block of `create_pr` (acp.py lines 568-671). -/
def create_pr_body (commit_message : Str) (verbose : Bool) (body : Str)
    (interactive merge auto_merge : Bool) (merge_method : Str) (sync : Bool)
    (original_branch temp_branch : Str) : M Unit := do
  let info ← get_repo_info verbose
  let fork_repo := info.1
  let upstream_repo := info.2.1
  let is_fork := info.2.2
  let _ ← run [gitS, strOf "checkout", strOf "-b", temp_branch]
  if verbose then
    echoOut (strOf "Committing: \"" ++ commit_message ++ strOf "\"")
  else pure ()
  run_interactive [gitS, strOf "commit", strOf "--quiet", strOf "-m", commit_message]
  if verbose then
    echoOut (strOf "Pushing branch \x27" ++ temp_branch ++ strOf "\x27 to \x27"
      ++ fork_repo ++ strOf "\x27...")
  else pure ()
  run_interactive [gitS, strOf "push", strOf "--quiet", strOf "-u", strOf "origin", temp_branch]
  let noUnstaged ← run_check [gitS, strOf "diff", strOf "--quiet"]
  let stash_id ← (if noUnstaged = false then do
      let timestamp ← getTime
      let sid := strOf "acp-stash-" ++ natStr timestamp
      if verbose then
        echoOut (strOf "Stashing unstaged changes as \x27" ++ sid ++ strOf "\x27...")
      else pure ()
      let _ ← run [gitS, strOf "stash", strOf "push", strOf "-m", sid]
      pure (some sid)
    else pure (none : Option Str))
  let _ ← run [gitS, strOf "checkout", original_branch]
  if verbose then
    echoOut (strOf "Switched back to original branch: \x27" ++ original_branch ++ strOf "\x27")
  else pure ()
  match stash_id with
  | some sid => do
    if verbose then echoOut (strOf "Restoring stashed changes...") else pure ()
    let stash_pop_result ← exec [gitS, strOf "stash", strOf "pop"]
    if stash_pop_result.code ≠ 0 then do
      echoErr (strOf "\nWarning: Failed to automatically restore stashed changes due to conflicts.")
      echoErr (strOf "Your changes are safely stored in stash: \x27" ++ sid ++ strOf "\x27")
      echoErr (strOf "To manually apply them, run: git stash apply \x27stash^\x7b/" ++ sid ++ strOf "\x7d\x27")
      echoErr (strOf "After resolving conflicts, drop the stash with: git stash drop \x27stash^\x7b/"
        ++ sid ++ strOf "\x7d\x27")
    else pure ()
  | none => pure ()
  if interactive then do
    let compare_url := build_compare_url upstream_repo fork_repo temp_branch is_fork
    echoOut (strOf "PR creation URL: " ++ compare_url)
  else do
    let pr_url ← create_github_pr upstream_repo fork_repo temp_branch commit_message
      body is_fork verbose
    if merge then
      merge_pr pr_url commit_message merge_method upstream_repo temp_branch
        verbose sync original_branch
    else if auto_merge then
      enable_auto_merge pr_url commit_message merge_method verbose
    else
      if verbose = false then echoOut (strOf "PR created: " ++ pr_url) else pure ()

/-- The tail of `create_pr` past the staged-changes precondition (acp.py
lines 565-706): generate the temporary branch name, then run the guarded
workflow body under the `except Exception` handler. -/
def afterPrecondition (commit_message : Str) (verbose : Bool) (body : Str)
    (interactive merge auto_merge : Bool) (merge_method : Str) (sync : Bool)
    (original_branch : Str) : M Unit := do
  let temp_branch ← generate_temp_branch_name verbose
  tryExceptException
    (create_pr_body commit_message verbose body interactive merge auto_merge
      merge_method sync original_branch temp_branch)
    (create_pr_handler original_branch)

/-- Embedding of `acp.create_pr` (acp.py lines 541-706). -/
def create_pr (commit_message : Str) (verbose : Bool) (body : Str)
    (interactive merge auto_merge : Bool) (merge_method : Str)
    (sync : Bool) : M Unit := do
  validate_merge_options interactive merge auto_merge merge_method
  let original_branch ← run [gitS, strOf "rev-parse", strOf "--abbrev-ref", strOf "HEAD"]
  if verbose then
    echoOut (strOf "Current branch: \x27" ++ original_branch ++ strOf "\x27")
  else pure ()
  let noStaged ← run_check [gitS, strOf "diff", strOf "--cached", strOf "--quiet"]
  if noStaged then do
    echoErr (strOf "Error: No staged changes. Run \x27git add\x27 first.")
    sysExit 1
  else pure ()
  afterPrecondition commit_message verbose body interactive merge auto_merge
    merge_method sync original_branch

/-- Run `create_pr` from invocation counter 0. -/
def runCreatePr (commit_message : Str) (verbose : Bool) (body : Str)
    (interactive merge auto_merge : Bool) (merge_method : Str) (sync : Bool)
    (env : Env) : Except Halt Unit × Nat × List Ev :=
  create_pr commit_message verbose body interactive merge auto_merge merge_method
    sync env 0

/-- The process exit code determined by an outcome: `sys.exit(c)` exits
with `c`; an uncaught exception makes the interpreter exit 1; a normal
return from the workflow lets the process exit 0. -/
def processExit (r : Except Halt Unit × Nat × List Ev) : Nat :=
  match r.1 with
  | .ok _ => 0
  | .error (.exited c) => c
  | .error .exn => 1

/-- The event trace of an outcome. -/
def evsOf (r : Except Halt Unit × Nat × List Ev) : List Ev := r.2.2

/-- Whether an event is a command invocation. -/
def isCmd : Ev → Bool
  | .cmd _ _ => true
  | _ => false

/-- Number of command invocations in a trace. -/
def numCmds (evs : List Ev) : Nat := (evs.filter isCmd).length

/-- Whether an event is a git command that mutates branch or history state:
checkout, commit or push. -/
def isBranchMutation : Ev → Bool
  | .cmd (g :: sub :: _) _ =>
    g == gitS && (sub == strOf "checkout" || sub == strOf "commit" || sub == strOf "push")
  | _ => false

/-- Whether an event is a `git add` staging command. -/
def isGitAdd : Ev → Bool
  | .cmd (g :: sub :: _) _ => g == gitS && sub == strOf "add"
  | _ => false

/-- Whether an event is a `git stash` command. -/
def isStashCmd : Ev → Bool
  | .cmd (g :: sub :: _) _ => g == gitS && sub == strOf "stash"
  | _ => false

/-- The branch checked out after a trace, starting from `start`: successful
`git checkout -b NAME` and `git checkout NAME` commands move HEAD, all other
events leave it. -/
def finalBranch (start : Str) (evs : List Ev) : Str :=
  evs.foldl (fun cur e =>
    match e with
    | .cmd [g, co, bflag, name] r =>
      if g == gitS && co == strOf "checkout" && bflag == strOf "-b" && r.code == 0
      then name else cur
    | .cmd [g, co, name] r =>
      if g == gitS && co == strOf "checkout" && r.code == 0 then name else cur
    | _ => cur) start

/-- An environment built from a finite list of command results — the k-th
invocation receives the k-th entry — plus a timestamp and a random number. -/
def mkEnv (l : List CmdRes) (time rand : Nat) : Env :=
  { res := fun k => (l.get? k).getD ⟨0, [], []⟩, time := time, rand := rand }

/-- Whether an event is a successful-or-not `git checkout <b>` command. -/
def isCheckoutOf (b : Str) : Ev → Bool
  | .cmd argv _ => argv == [gitS, strOf "checkout", b]
  | _ => false

/-- Whether an event is a `git checkout -b <b>` branch creation. -/
def isCheckoutNewB (b : Str) : Ev → Bool
  | .cmd argv _ => argv == [gitS, strOf "checkout", strOf "-b", b]
  | _ => false

/-- Whether an event is the staged-changes precondition check
`git diff --cached --quiet`. -/
def isStagedCheckCmd : Ev → Bool
  | .cmd argv _ => argv == [gitS, strOf "diff", strOf "--cached", strOf "--quiet"]
  | _ => false

/-- An environment in which the repository is a plain (non-fork) GitHub
checkout on branch `main` with staged changes, the temporary branch is
created, the commit succeeds, and then `git push` fails with exit code 1. -/
def envPushFails : Env := mkEnv [
  ⟨0, strOf "main", []⟩,
  ⟨1, [], []⟩,
  ⟨0, strOf "alice", []⟩,
  ⟨0, strOf "git@github.com:alice/repo.git", []⟩,
  ⟨1, [], []⟩,
  ⟨0, [], []⟩,
  ⟨0, [], []⟩,
  ⟨1, [], strOf "fatal: could not push"⟩] 0 4242

/-- The run of `create_pr "msg"` (all options off) under `envPushFails`. -/
def resPushFails : Except Halt Unit × Nat × List Ev :=
  runCreatePr (strOf "msg") false [] false false false (strOf "squash") false envPushFails

/-- An environment in which the whole non-verbose, non-interactive,
no-merge workflow succeeds: non-fork GitHub repository on `main`, staged
changes present, no unstaged changes, PR created. -/
def envPlainSuccess : Env := mkEnv [
  ⟨0, strOf "main", []⟩,
  ⟨1, [], []⟩,
  ⟨0, strOf "alice", []⟩,
  ⟨0, strOf "git@github.com:alice/repo.git", []⟩,
  ⟨1, [], []⟩,
  ⟨0, [], []⟩,
  ⟨0, [], []⟩,
  ⟨0, [], []⟩,
  ⟨0, [], []⟩,
  ⟨0, [], []⟩,
  ⟨0, strOf "https://github.com/alice/repo/pull/1", []⟩] 0 4242

/-- The run of `create_pr "test commit"` (all options off) under
`envPlainSuccess`. -/
def resPlainSuccess : Except Halt Unit × Nat × List Ev :=
  runCreatePr (strOf "test commit") false [] false false false (strOf "squash") false
    envPlainSuccess

/-- The abort outcome of `create_pr` when the staged-changes precondition
fires: exit 1 after exactly two commands — the branch query and the
staged-diff check — with the `No staged changes` diagnostic and nothing
else. -/
def noStagedAbortTrace (env : Env) : Except Halt Unit × Nat × List Ev :=
  (.error (.exited 1), 2,
    [.cmd [gitS, strOf "rev-parse", strOf "--abbrev-ref", strOf "HEAD"] (env.res 0),
     .cmd [gitS, strOf "diff", strOf "--cached", strOf "--quiet"] (env.res 1),
     .err (strOf "Error: No staged changes. Run \x27git add\x27 first.")])

/-- The stash label `acp-stash-<unix-timestamp>`. -/
def stashLabel (t : Nat) : Str := strOf "acp-stash-" ++ natStr t

/-- Environment for the stash-conflict scenario: staged changes present,
unstaged changes present at branch-switch time, `git stash pop` fails with
a conflict, everything else succeeds; the timestamp is `t`. -/
def envStashConflict (t : Nat) : Env := mkEnv [
  ⟨0, strOf "main", []⟩,
  ⟨1, [], []⟩,
  ⟨0, strOf "alice", []⟩,
  ⟨0, strOf "git@github.com:alice/repo.git", []⟩,
  ⟨1, [], []⟩,
  ⟨0, [], []⟩,
  ⟨0, [], []⟩,
  ⟨0, [], []⟩,
  ⟨1, [], []⟩,
  ⟨0, [], []⟩,
  ⟨0, [], []⟩,
  ⟨1, [], strOf "CONFLICT (content): Merge conflict in file.txt"⟩,
  ⟨0, strOf "https://github.com/alice/repo/pull/1", []⟩] t 4242

/-- The run of `create_pr "msg"` (all options off) under
`envStashConflict t`. -/
def resStashConflict (t : Nat) : Except Halt Unit × Nat × List Ev :=
  runCreatePr (strOf "msg") false [] false false false (strOf "squash") false
    (envStashConflict t)

/-- Environment for the merge-failure scenarios: the PR is created with URL
`u`, then the `gh pr merge` invocation (with or without `--auto`) fails
with exit code 1 and stderr `e`. -/
def envMergeFail (u e : Str) : Env := mkEnv [
  ⟨0, strOf "main", []⟩,
  ⟨1, [], []⟩,
  ⟨0, strOf "alice", []⟩,
  ⟨0, strOf "git@github.com:alice/repo.git", []⟩,
  ⟨1, [], []⟩,
  ⟨0, [], []⟩,
  ⟨0, [], []⟩,
  ⟨0, [], []⟩,
  ⟨0, [], []⟩,
  ⟨0, [], []⟩,
  ⟨0, u, []⟩,
  ⟨1, [], e⟩] 0 4242

/-- The run of `create_pr "msg" --merge` under `envMergeFail u e`. -/
def resMergeFail (u e : Str) : Except Halt Unit × Nat × List Ev :=
  runCreatePr (strOf "msg") false [] false true false (strOf "squash") false
    (envMergeFail u e)

/-- The run of `create_pr "msg" --auto-merge` under `envMergeFail u e`. -/
def resAutoMergeFail (u e : Str) : Except Halt Unit × Nat × List Ev :=
  runCreatePr (strOf "msg") false [] false false true (strOf "squash") false
    (envMergeFail u e)

/-- Environment family for claim C2: the branch query succeeds reporting
branch `ob`, and the staged-diff check exits 0 — no staged changes. -/
def envNoStagedP (ob : Str) : Env := mkEnv [⟨0, ob, []⟩, ⟨0, [], []⟩] 0 0

/-- Environment family for claim C10: the branch query succeeds on `main`
and the staged-diff check exits with code `c`; any later command receives
the default result. -/
def envStagedCheck (c : Nat) : Env := mkEnv [⟨0, strOf "main", []⟩, ⟨c, [], []⟩] 0 0

/-! Helper lemmas about the Python string primitives. -/

theorem strStarts_refl_append (n t : Str) : strStarts n (n ++ t) = true := by
  induction n with
  | nil => rfl
  | cons a n ih => simp [strStarts, ih]

theorem containsSub_cons_of (n : Str) (c : Char) (t : Str)
    (h : containsSub n t = true) : containsSub n (c :: t) = true := by
  simp [containsSub, h]

theorem containsSub_append_left (n a b : Str) (h : containsSub n b = true) :
    containsSub n (a ++ b) = true := by
  induction a with
  | nil => simpa using h
  | cons c a ih => simpa using containsSub_cons_of _ c _ ih

theorem containsSub_self_append (n t : Str) : containsSub n (n ++ t) = true := by
  cases n with
  | nil => cases t <;> simp [containsSub, strStarts]
  | cons a n =>
    have hs : strStarts (a :: n) (a :: (n ++ t)) = true := strStarts_refl_append _ _
    simp [containsSub, hs]

theorem pySplitChar_no_sep (sep : Char) (s : Str) (h : sep ∉ s) :
    pySplitChar sep s = [s] := by
  induction s with
  | nil => rfl
  | cons c r ih =>
    have h1 : (c == sep) = false := by
      simp only [beq_eq_false_iff_ne]
      intro he
      exact h (by simp [he])
    have h2 : sep ∉ r := fun hm => h (List.mem_cons_of_mem _ hm)
    simp [pySplitChar, h1, ih h2]

theorem pySplitChar_append (sep : Char) (xs ys : Str) (h : sep ∉ xs) :
    pySplitChar sep (xs ++ sep :: ys) = xs :: pySplitChar sep ys := by
  induction xs with
  | nil => simp [pySplitChar]
  | cons c r ih =>
    have h1 : (c == sep) = false := by
      simp only [beq_eq_false_iff_ne]
      intro he
      exact h (by simp [he])
    have h2 : sep ∉ r := fun hm => h (List.mem_cons_of_mem _ hm)
    simp [pySplitChar, h1, ih h2]

theorem strStarts_append_of_le (p : Str) : ∀ s t : Str, p.length ≤ s.length →
    strStarts p (s ++ t) = strStarts p s := by
  induction p with
  | nil => intro s t _; simp [strStarts]
  | cons a p ih =>
    intro s t hl
    cases s with
    | nil => simp at hl
    | cons b s => simp [strStarts, ih s t (by simpa using hl)]

theorem pyReplaceF_strip (s : Str) : ∀ fuel, (s ++ dotGit).length ≤ fuel →
    containsSub dotGit s = false → pyReplaceF dotGit [] fuel (s ++ dotGit) = s := by
  induction s with
  | nil =>
    intro fuel hf _
    cases fuel with
    | zero => simp [dotGit, strOf] at hf
    | succ f =>
      show pyReplaceF dotGit [] (f + 1) dotGit = []
      rw [show (dotGit : Str) = '.' :: ['g', 'i', 't'] from rfl]
      rw [pyReplaceF, if_pos (by decide)]
      simp [pyReplaceF]
  | cons c r ih =>
    intro fuel hf hcs
    cases fuel with
    | zero => simp at hf
    | succ f =>
      have hcs2 : strStarts dotGit (c :: r) = false ∧ containsSub dotGit r = false := by
        have := hcs
        rw [containsSub] at this
        exact Bool.or_eq_false_iff.mp this
      have hss : strStarts dotGit (c :: (r ++ dotGit)) = false := by
        rcases r with _ | ⟨a, _ | ⟨b, _ | ⟨d, r'⟩⟩⟩
        · rw [show (dotGit : Str) = ['.', 'g', 'i', 't'] from rfl]
          show (('.' == c) && (('g' == '.') && (('i' == 'g') && (('t' == 'i') && true)))) = false
          rw [show (('g' : Char) == '.') = false from by decide]
          simp
        · rw [show (dotGit : Str) = ['.', 'g', 'i', 't'] from rfl]
          show (('.' == c) && (('g' == a) && (('i' == '.') && (('t' == 'g') && _)))) = false
          rw [show (('i' : Char) == '.') = false from by decide]
          simp
        · rw [show (dotGit : Str) = ['.', 'g', 'i', 't'] from rfl]
          show (('.' == c) && (('g' == a) && (('i' == b) && (('t' == '.') && _)))) = false
          rw [show (('t' : Char) == '.') = false from by decide]
          simp
        · have hre : c :: (a :: b :: d :: r') ++ dotGit
              = (c :: a :: b :: d :: r') ++ dotGit := rfl
          calc strStarts dotGit (c :: (a :: b :: d :: r' ++ dotGit))
              = strStarts dotGit ((c :: a :: b :: d :: r') ++ dotGit) := rfl
            _ = strStarts dotGit (c :: a :: b :: d :: r') :=
                strStarts_append_of_le _ _ _ (by simp [dotGit, strOf])
            _ = false := hcs2.1
      have hcond : ¬ (0 < dotGit.length ∧ strStarts dotGit (c :: (r ++ dotGit)) = true) := by
        intro hco
        rw [hss] at hco
        exact absurd hco.2 (by simp)
      show pyReplaceF dotGit [] (f + 1) (c :: (r ++ dotGit)) = c :: r
      rw [pyReplaceF, if_neg hcond]
      have hf' : (r ++ dotGit).length ≤ f := by
        have : (c :: (r ++ dotGit)).length ≤ f + 1 := by simpa using hf
        simpa using Nat.le_of_succ_le_succ this
      rw [ih f hf' hcs2.2]

theorem pyReplace_strip (s : Str) (h : containsSub dotGit s = false) :
    pyReplace dotGit [] (s ++ dotGit) = s :=
  pyReplaceF_strip s _ le_rfl h

theorem parse_ssh_eq (owner repo : Str) (ho1 : ':' ∉ owner) (hr1 : ':' ∉ repo) :
    parse_github_url (sshUrl owner repo)
      = .ok (some (pyReplace dotGit [] (owner ++ '/' :: (repo ++ dotGit)))) := by
  have hdec : sshUrl owner repo
      = strOf "git@" ++ (ghHost ++ (':' :: (owner ++ '/' :: (repo ++ dotGit)))) := rfl
  have hc : containsSub ghHost (sshUrl owner repo) = true := by
    rw [hdec]
    exact containsSub_append_left _ _ _ (containsSub_self_append _ _)
  have hs : strStarts sshMark (sshUrl owner repo) = true := by
    have hdec2 : sshUrl owner repo
        = sshMark ++ (strOf "github.com:" ++ (owner ++ '/' :: (repo ++ dotGit))) := rfl
    rw [hdec2]
    exact strStarts_refl_append _ _
  have hys : ':' ∉ owner ++ '/' :: (repo ++ dotGit) := by
    intro hm
    rcases List.mem_append.mp hm with h | h
    · exact ho1 h
    · rcases List.mem_cons.mp h with h | h
      · exact absurd h (by decide)
      · rcases List.mem_append.mp h with h | h
        · exact hr1 h
        · exact absurd h (by decide)
  have hsplit : pySplitChar ':' (sshUrl owner repo)
      = [strOf "git@github.com", owner ++ '/' :: (repo ++ dotGit)] := by
    have hdec3 : sshUrl owner repo
        = strOf "git@github.com" ++ ':' :: (owner ++ '/' :: (repo ++ dotGit)) := rfl
    rw [hdec3, pySplitChar_append _ _ _ (by decide), pySplitChar_no_sep _ _ hys]
  rw [parse_github_url, if_neg (by simp [hc]), if_pos hs, hsplit]
  rfl

theorem parse_https_eq (owner repo : Str) (ho2 : '/' ∉ owner) (hr2 : '/' ∉ repo) :
    parse_github_url (httpsUrl owner repo)
      = .ok (some (pyReplace dotGit [] (owner ++ '/' :: (repo ++ dotGit)))) := by
  have hc : containsSub ghHost (httpsUrl owner repo) = true := by
    have hdec : httpsUrl owner repo
        = strOf "https://" ++ (ghHost ++ ('/' :: (owner ++ '/' :: (repo ++ dotGit)))) := rfl
    rw [hdec]
    exact containsSub_append_left _ _ _ (containsSub_self_append _ _)
  have hns : strStarts sshMark (httpsUrl owner repo) = false := rfl
  have hys : '/' ∉ repo ++ dotGit := by
    intro hm
    rcases List.mem_append.mp hm with h | h
    · exact hr2 h
    · exact absurd h (by decide)
  have hsplit : pySplitChar '/' (httpsUrl owner repo)
      = [strOf "https:", [], ghHost, owner, repo ++ dotGit] := by
    have hdec : httpsUrl owner repo
        = strOf "https:" ++ '/' :: (([] : Str) ++ '/' :: (ghHost ++ '/' ::
            (owner ++ '/' :: (repo ++ dotGit)))) := rfl
    rw [hdec, pySplitChar_append _ _ _ (by decide),
      pySplitChar_append _ _ _ (by decide),
      pySplitChar_append _ _ _ (by decide),
      pySplitChar_append _ _ _ ho2,
      pySplitChar_no_sep _ _ hys]
  rw [parse_github_url, if_neg (by simp [hc]), if_neg (by simp [hns]), hsplit]
  rfl

/-- Claim C6: for every owner/repo pair (names not containing the separator
characters `:` and `/`), parsing the SSH form `git@github.com:owner/repo.git`
and the HTTPS form `https://github.com/owner/repo.git` yields the same
result. -/
theorem c6_ssh_https_same_result (owner repo : Str)
    (ho1 : ':' ∉ owner) (hr1 : ':' ∉ repo)
    (ho2 : '/' ∉ owner) (hr2 : '/' ∉ repo) :
    parse_github_url (sshUrl owner repo) = parse_github_url (httpsUrl owner repo) := by
  rw [parse_ssh_eq owner repo ho1 hr1, parse_https_eq owner repo ho2 hr2]

/-- Witness for claim C6 at the concrete pair `octo/hello`. -/
theorem c6_witness :
    (':' ∉ strOf "octo") ∧ (':' ∉ strOf "hello") ∧
    ('/' ∉ strOf "octo") ∧ ('/' ∉ strOf "hello") ∧
    parse_github_url (sshUrl (strOf "octo") (strOf "hello"))
      = parse_github_url (httpsUrl (strOf "octo") (strOf "hello")) :=
  ⟨by decide, by decide, by decide, by decide,
    c6_ssh_https_same_result _ _ (by decide) (by decide) (by decide) (by decide)⟩

/-- Counterexample for claim C7 as stated: the URL
`https://notgithub.com/owner/repo.git` has host `notgithub.com`, which is not
the supported hosting domain, yet `parse_github_url` does not return `None`
for it — the code only checks that `github.com` occurs somewhere in the URL. -/
theorem c7_counterexample :
    parse_github_url (strOf "https://notgithub.com/owner/repo.git")
      = .ok (some (strOf "owner/repo"))
    ∧ urlHost (strOf "https://notgithub.com/owner/repo.git") ≠ ghHost := by
  decide

/-- Claim C7 (amended): `parse_github_url` returns `None` exactly when the
string `github.com` does not occur as a substring of the URL; a non-`None`
result implies `github.com` occurs somewhere in the URL, but not necessarily
as its host. -/
theorem c7_amended_none_iff_no_github (url : Str) :
    parse_github_url url = .ok none ↔ containsSub ghHost url = false := by
  constructor
  · intro h
    by_contra hc
    rw [parse_github_url, if_neg hc] at h
    by_cases hs : strStarts sshMark url = true
    · rw [if_pos hs] at h
      cases hg : (pySplitChar ':' url).get? 1 with
      | none => rw [hg] at h; exact Except.noConfusion h
      | some part => rw [hg] at h; simp at h
    · rw [if_neg hs] at h
      simp at h
  · intro h
    rw [parse_github_url, if_pos h]

/-- Counterexample for claim C8 as stated: `.replace(".git", "")` removes
every occurrence of `.git`, not only a trailing suffix, so the repository
name `my.gitx` is mangled to `myx` by the parse. -/
theorem c8_counterexample :
    parse_github_url (strOf "git@github.com:owner/my.gitx.git")
      = .ok (some (strOf "owner/myx"))
    ∧ strOf "owner/myx" ≠ strOf "owner/my.gitx" := by
  decide

/-- Claim C8 (amended): parsing an accepted SSH or HTTPS URL removes every
occurrence of the substring `.git` from the owner/repo part; when `.git`
occurs only as the trailing suffix — in particular whenever the owner and
repository names contain no `.git` — the parse yields `owner/repo` exactly,
altering nothing else. -/
theorem c8_amended_strip_when_only_suffix (owner repo : Str)
    (ho1 : ':' ∉ owner) (hr1 : ':' ∉ repo)
    (ho2 : '/' ∉ owner) (hr2 : '/' ∉ repo)
    (hng : containsSub dotGit (owner ++ '/' :: repo) = false) :
    parse_github_url (sshUrl owner repo) = .ok (some (owner ++ '/' :: repo))
    ∧ parse_github_url (httpsUrl owner repo) = .ok (some (owner ++ '/' :: repo)) := by
  have hassoc : owner ++ '/' :: (repo ++ dotGit) = (owner ++ '/' :: repo) ++ dotGit := by
    simp
  have hstrip : pyReplace dotGit [] (owner ++ '/' :: (repo ++ dotGit))
      = owner ++ '/' :: repo := by
    rw [hassoc, pyReplace_strip _ hng]
  exact ⟨by rw [parse_ssh_eq owner repo ho1 hr1, hstrip],
    by rw [parse_https_eq owner repo ho2 hr2, hstrip]⟩

/-- Witness for the amended claim C8 at the concrete pair `octo/hello`. -/
theorem c8_amended_witness :
    (':' ∉ strOf "octo") ∧ (':' ∉ strOf "hello") ∧
    ('/' ∉ strOf "octo") ∧ ('/' ∉ strOf "hello") ∧
    containsSub dotGit (strOf "octo" ++ '/' :: strOf "hello") = false ∧
    (parse_github_url (sshUrl (strOf "octo") (strOf "hello"))
        = .ok (some (strOf "octo" ++ '/' :: strOf "hello"))
      ∧ parse_github_url (httpsUrl (strOf "octo") (strOf "hello"))
        = .ok (some (strOf "octo" ++ '/' :: strOf "hello"))) :=
  ⟨by decide, by decide, by decide, by decide, by decide,
    c8_amended_strip_when_only_suffix _ _ (by decide) (by decide) (by decide)
      (by decide) (by decide)⟩

/-! Evaluation of the precondition scenarios.  All exit codes in these
environment families are literal, so the workflow reduces by computation
even though branch names, messages and the check's exit code stay
symbolic. -/

/-- Claim C2: when the staged-changes check command exits 0 (no staged
changes), `create_pr` exits 1 having issued exactly two commands — the
branch query and the staged-diff check — so no checkout, commit or push
command is issued and no branch is created. -/
theorem c2_no_staged_no_branch (ob msg : Str) :
    runCreatePr msg false [] false false false (strOf "squash") false (envNoStagedP ob)
      = noStagedAbortTrace (envNoStagedP ob)
    ∧ processExit (noStagedAbortTrace (envNoStagedP ob)) = 1
    ∧ ∀ e ∈ evsOf (noStagedAbortTrace (envNoStagedP ob)), isBranchMutation e = false := by
  refine ⟨rfl, rfl, ?_⟩
  intro e he
  simp only [noStagedAbortTrace, evsOf, List.mem_cons, List.not_mem_nil, or_false] at he
  rcases he with rfl | rfl | rfl <;> rfl

/-- Claim C10: the `No staged changes` precondition abort happens exactly
when the staged-diff check command exits 0; any nonzero exit status `c` —
whether staged changes are present (`c = 1`) or the check command itself
failed (such as `c = 129` outside a git repository) — makes the workflow
proceed past the precondition and issue further commands (four in this
environment family, against two for the abort). -/
theorem c10_abort_iff_check_exits_zero (c : Nat) :
    ((runCreatePr (strOf "msg") false [] false false false (strOf "squash") false
        (envStagedCheck c) = noStagedAbortTrace (envStagedCheck c))
      ↔ c = 0)
    ∧ (c ≠ 0 → numCmds (evsOf (runCreatePr (strOf "msg") false [] false false false
        (strOf "squash") false (envStagedCheck c))) = 4) := by
  cases c with
  | zero => exact ⟨⟨fun _ => rfl, fun _ => rfl⟩, fun hc => absurd rfl hc⟩
  | succ n =>
    refine ⟨⟨fun h => ?_, fun h => absurd h (Nat.succ_ne_zero n)⟩, fun _ => rfl⟩
    have h5 : (runCreatePr (strOf "msg") false [] false false false (strOf "squash") false
        (envStagedCheck (n + 1))).2.2.length = 5 := rfl
    have h3 : (noStagedAbortTrace (envStagedCheck (n + 1))).2.2.length = 3 := rfl
    rw [h, h3] at h5
    exact absurd h5 (by decide)

/-- Witness for claim C10 at the concrete failing-check status 129: the
check command's own failure also lets the workflow proceed. -/
theorem c10_witness :
    (129 : Nat) ≠ 0 ∧ numCmds (evsOf (runCreatePr (strOf "msg") false [] false false false
      (strOf "squash") false (envStagedCheck 129))) = 4 :=
  ⟨by decide, (c10_abort_iff_check_exits_zero 129).2 (by decide)⟩

/-- Claim C3: the `gh pr create` invocation executed by `create_github_pr`
carries `--head <forkOwner>:<tempBranch>` — the fork owner being the first
`/`-segment of the fork repository — exactly when `is_fork` is true, and
`--head <tempBranch>` when it is false; `--head` and its value are the
final two arguments in both cases.  For the concrete fork repository
`alice/repo` the qualified head reads `alice:<branch>`. -/
theorem c3_head_argument (up fork temp msg body u : Str) :
    ((create_github_pr up fork temp msg body true false (mkEnv [⟨0, u, []⟩] 0 0) 0).2.2.head?
      = some (.cmd [ghS, strOf "pr", strOf "create", strOf "--repo", up,
          strOf "--title", msg, strOf "--body", body,
          strOf "--head", pyIdx0 (pySplitChar '/' fork) ++ ':' :: temp] ⟨0, u, []⟩))
    ∧ ((create_github_pr up fork temp msg body false false (mkEnv [⟨0, u, []⟩] 0 0) 0).2.2.head?
      = some (.cmd [ghS, strOf "pr", strOf "create", strOf "--repo", up,
          strOf "--title", msg, strOf "--body", body,
          strOf "--head", temp] ⟨0, u, []⟩))
    ∧ pyIdx0 (pySplitChar '/' (strOf "alice/repo")) ++ ':' :: strOf "xyz"
      = strOf "alice:xyz" :=
  ⟨rfl, rfl, by decide⟩

/-- Claim C4: with unstaged changes present at branch-switch time the
workflow pushes a stash labelled `acp-stash-<timestamp>` (trace event 9)
before switching back to the original branch (event 10) and pops it
afterwards (event 11); when the pop fails, the run still completes with
process exit 0 — the PR was created — while the stash label and the exact
recovery commands are emitted on the diagnostic stream (events 13-15); and
when no unstaged changes exist (the plain success run) no stash command is
issued at all. -/
theorem c4_stash_guard (t : Nat) :
    processExit (resStashConflict t) = 0
    ∧ (evsOf (resStashConflict t)).get? 9
        = some (.cmd [gitS, strOf "stash", strOf "push", strOf "-m", stashLabel t] ⟨0, [], []⟩)
    ∧ (evsOf (resStashConflict t)).get? 10
        = some (.cmd [gitS, strOf "checkout", strOf "main"] ⟨0, [], []⟩)
    ∧ (evsOf (resStashConflict t)).get? 11
        = some (.cmd [gitS, strOf "stash", strOf "pop"]
            ⟨1, [], strOf "CONFLICT (content): Merge conflict in file.txt"⟩)
    ∧ (evsOf (resStashConflict t)).get? 13
        = some (.err (strOf "Your changes are safely stored in stash: \x27"
            ++ stashLabel t ++ strOf "\x27"))
    ∧ (evsOf (resStashConflict t)).get? 14
        = some (.err (strOf "To manually apply them, run: git stash apply \x27stash^\x7b/"
            ++ stashLabel t ++ strOf "\x7d\x27"))
    ∧ (evsOf (resStashConflict t)).get? 15
        = some (.err (strOf "After resolving conflicts, drop the stash with: git stash drop \x27stash^\x7b/"
            ++ stashLabel t ++ strOf "\x7d\x27"))
    ∧ (evsOf resPlainSuccess).filter isStashCmd = [] :=
  ⟨rfl, rfl, rfl, rfl, rfl, rfl, rfl, by decide⟩

/-- Claim C5: when the merge command fails after the PR was already
created, the trace reports the PR URL on stdout first (event 12) and the
distinct merge-failure diagnostic on stderr after it (event 13), and the
process exits 1; the same URL-first behaviour holds when enabling
auto-merge fails after PR creation. -/
theorem c5_merge_failure_reports_url_first (u e : Str) :
    processExit (resMergeFail u e) = 1
    ∧ (evsOf (resMergeFail u e)).get? 12
        = some (.out (strOf "PR created: " ++ pyStrip u))
    ∧ (evsOf (resMergeFail u e)).get? 13
        = some (.err (strOf "Error: Failed to merge PR: " ++ pyStrip e))
    ∧ (evsOf (resMergeFail u e)).length = 14
    ∧ processExit (resAutoMergeFail u e) = 1
    ∧ (evsOf (resAutoMergeFail u e)).get? 12
        = some (.out (strOf "PR created: " ++ pyStrip u))
    ∧ (evsOf (resAutoMergeFail u e)).get? 13
        = some (.err (strOf "Error: Failed to enable auto-merge: " ++ pyStrip e))
    ∧ (evsOf (resAutoMergeFail u e)).length = 14 :=
  ⟨rfl, rfl, rfl, rfl, rfl, rfl, rfl, rfl⟩

/-- Claim C1 (code bug, evaluated at the failing input): when `git push`
exits nonzero after the temporary branch `acp/alice/4242` was created and
checked out, `create_pr` propagates `sys.exit(1)` — `SystemExit` does not
derive from `Exception`, so the `except Exception` restore block never
runs — and the process exits 1 with the temporary branch still checked
out: the trace contains the `git checkout -b` that created it and no
`git checkout main` afterwards, so the workflow does not end with the
original branch checked out. -/
theorem c1_push_failure_no_restore :
    processExit resPushFails = 1
    ∧ (evsOf resPushFails).any (isCheckoutNewB (strOf "acp/alice/4242")) = true
    ∧ (evsOf resPushFails).filter (isCheckoutOf (strOf "main")) = []
    ∧ finalBranch (strOf "main") (evsOf resPushFails) = strOf "acp/alice/4242" := by
  decide

/-- Claim C9 (code bug, evaluated at the nearest admissible input):
`create_pr` has no stage-all option at all — its tests call
`create_pr(..., add=True)` and expect a `git add .` before the
staged-changes check, which the implementation does not accept — and on a
complete successful run the trace contains the staged-changes check but no
`git add` command whatsoever. -/
theorem c9_no_stage_all_option :
    processExit resPlainSuccess = 0
    ∧ (evsOf resPlainSuccess).filter isGitAdd = []
    ∧ (evsOf resPlainSuccess).any isStagedCheckCmd = true := by
  decide

end Acp
